import Mathlib

/-!
Shallow embedding of `client.go` from the gosseract repository: a stateful
configuration-and-lifecycle wrapper around an external OCR engine.

The external world (filesystem via `os.Stat`, and the native engine reached
through cgo) is modelled by an `Env` oracle.  Each operation is translated
from the Go source; operations that perform native calls additionally return
counters for those calls (engine `Init` invocations, `DestroyPixImage`
invocations, engine handle releases, `UTF8Text` / `HOCRText` invocations), so
that claims about "called exactly once" / "never called" are statable.
-/

namespace Gosseract

/-- Result of `os.Stat` on a path: the path is absent (stat returns an
error), an existing regular file, or an existing directory. -/
inductive Fs
  | absent
  | file
  | dir
deriving DecidableEq, Repr

/-- The external world: filesystem contents and the native engine's
behaviour.  `initCode` is the status code returned by `C.Init` given the
joined language string (`none` when no languages are set) and the config
path (`none` when the config path does not exist on disk);
`bufferHandle` / `pathHandle` are the pix-image handles returned by
`C.SetImageFromBuffer` / `C.SetImage`; `setVarOk` is the result of
`C.SetVariable`; `utf8Text` / `hocrText` are the strings the engine
returns from `C.UTF8Text` / `C.HOCRText`. -/
structure Env where
  fs : String → Fs
  initCode : Option String → Option String → Int
  bufferHandle : List Nat → Nat
  pathHandle : String → Nat
  setVarOk : String → String → Bool
  utf8Text : String
  hocrText : String

/-- The errors produced by `client.go`, one constructor per error site.
`statErr` is the error returned by `os.Stat` in `SetConfigFile` when the
path does not exist; `configIsDir` is "the specified config file path seems
to be a directory"; `engineInit` is "failed to initialize TessBaseAPI with
code %d"; `missingImagePath` is "invalid path will be set"; `imageNotFound`
is "file does not exist"; `variableBind` is "failed to set variable".
`emptyImageData` is an error kind named by the specification (§4.3,
`EmptyImageDataError`) that has no counterpart in the source; it is included
so that its absence from the code's behaviour can be stated. -/
inductive GErr
  | statErr (path : String)
  | configIsDir
  | engineInit (code : Int)
  | missingImagePath
  | imageNotFound
  | variableBind (key value : String)
  | emptyImageData
deriving DecidableEq, Repr

/-- The spec's `ConfigPathError` covers both failure modes of
`SetConfigFile`: path missing (the `os.Stat` error) or path is a
directory. -/
def GErr.isConfigPathError : GErr → Bool
  | .statErr _ => true
  | .configIsDir => true
  | _ => false

/-- The `Client` struct of `client.go`.  `pixImage` holds the currently
bound native image handle (`C.PixImage`, nil modelled as `none`);
`ImageData` is the in-memory image bytes; `Variables` is the variable pool
(the Go map, modelled as an association list iterated in list order). -/
structure Client where
  pixImage : Option Nat
  Initialized : Bool
  Trim : Bool
  Languages : List String
  ImagePath : String
  ImageData : List Nat
  Variables : List (String × String)
  PageSegMode : Option Int
  ConfigFilePath : String
deriving DecidableEq, Repr

/-- `NewClient`: fresh client with an empty variable pool and `Trim = true`. -/
def NewClient : Client :=
  { pixImage := none, Initialized := false, Trim := true, Languages := [],
    ImagePath := "", ImageData := [], Variables := [], PageSegMode := none,
    ConfigFilePath := "" }

/-- `Client.Close`: unconditionally runs `C.Clear(api)` and `C.Free(api)`,
then destroys the pix image if one is bound and clears the reference.
Returns the client afterwards, the number of engine-handle releases
(`C.Free(api)` calls) and the number of `C.DestroyPixImage` calls. -/
def Client.Close (client : Client) : Client × Nat × Nat :=
  match client.pixImage with
  | some _ => ({ client with pixImage := none }, 1, 1)
  | none => (client, 1, 0)

/-- `Client.SetImage`: destroys a previously bound pix image (clearing the
reference), then stores the path.  Returns the client and the number of
`C.DestroyPixImage` calls. -/
def Client.SetImage (client : Client) (imagepath : String) : Client × Nat :=
  match client.pixImage with
  | some _ => ({ client with pixImage := none, ImagePath := imagepath }, 1)
  | none => ({ client with ImagePath := imagepath }, 0)

/-- `Client.SetImageFromBytes`: destroys a previously bound pix image
(clearing the reference), then stores the byte buffer.  Returns the client
and the number of `C.DestroyPixImage` calls. -/
def Client.SetImageFromBytes (client : Client) (data : List Nat) : Client × Nat :=
  match client.pixImage with
  | some _ => ({ client with pixImage := none, ImageData := data }, 1)
  | none => ({ client with ImageData := data }, 0)

/-- `Client.SetLanguage`: marks the client uninitialized and replaces the
language list. -/
def Client.SetLanguage (client : Client) (langs : List String) : Client :=
  { client with Initialized := false, Languages := langs }

/-- `Client.SetVariable`: upserts into the variable pool (Go map write:
last write wins). -/
def Client.SetVariable (client : Client) (key value : String) : Client :=
  { client with Variables :=
      (client.Variables.filter (fun kv => kv.1 ≠ key)) ++ [(key, value)] }

/-- `Client.SetPageSegMode`: replaces the page segmentation mode. -/
def Client.SetPageSegMode (client : Client) (mode : Int) : Client :=
  { client with PageSegMode := some mode }

/-- `Client.SetConfigFile`: `os.Stat(fpath)` error is returned as-is
(path absent); a directory yields the "seems to be a directory" error;
otherwise the client is marked uninitialized and the path stored.
Returns the error (if any) and the client afterwards. -/
def Client.SetConfigFile (client : Client) (env : Env) (fpath : String) :
    Except GErr Unit × Client :=
  match env.fs fpath with
  | Fs.absent => (Except.error (GErr.statErr fpath), client)
  | Fs.dir => (Except.error GErr.configIsDir, client)
  | Fs.file =>
      (Except.ok (), { client with Initialized := false, ConfigFilePath := fpath })

/-- `Client.charLangs`: the joined language string passed to `C.Init`, or
null (`none`) when no languages are set. -/
def Client.charLangs (client : Client) : Option String :=
  if client.Languages.length ≠ 0 then
    some (String.intercalate "+" client.Languages)
  else none

/-- `Client.charConfig`: the config path passed to `C.Init`, but only when
`os.Stat` on it currently succeeds (file or directory); null otherwise. -/
def Client.charConfig (client : Client) (env : Env) : Option String :=
  if env.fs client.ConfigFilePath ≠ Fs.absent then some client.ConfigFilePath
  else none

/-- `Client.init`: no-op when already initialized; otherwise calls
`C.Init` with the language string and config path, failing (client
unchanged) on a non-zero status and marking the client initialized on
success.  Returns the error (if any), the client afterwards, and the number
of engine `C.Init` invocations. -/
def Client.init (client : Client) (env : Env) : Except GErr Unit × Client × Nat :=
  if client.Initialized then (Except.ok (), client, 0)
  else
    let res := env.initCode client.charLangs (client.charConfig env)
    if res ≠ 0 then (Except.error (GErr.engineInit res), client, 1)
    else (Except.ok (), { client with Initialized := true }, 1)

/-- The variable-application loop of `Client.prepare`: binds each pooled
variable in turn, failing on the first one the engine rejects. -/
def bindVars (env : Env) : List (String × String) → Except GErr Unit
  | [] => Except.ok ()
  | (key, value) :: rest =>
      if env.setVarOk key value then bindVars env rest
      else Except.error (GErr.variableBind key value)

/-- `Client.prepare`: when no pix image is bound, derives one from the byte
buffer if it is non-empty, else from the path (failing when the path is
empty or does not exist on disk); when a pix image is already bound it is
rebound via `C.SetPixImage` unchanged.  Then applies the pooled variables
and the page segmentation mode.  Returns the error (if any) and the client
afterwards. -/
def Client.prepare (client : Client) (env : Env) : Except GErr Unit × Client :=
  let bound : Except GErr Unit × Client :=
    match client.pixImage with
    | none =>
        if client.ImageData.length > 0 then
          (Except.ok (),
            { client with pixImage := some (env.bufferHandle client.ImageData) })
        else
          if client.ImagePath = "" then (Except.error GErr.missingImagePath, client)
          else if env.fs client.ImagePath = Fs.absent then
            (Except.error GErr.imageNotFound, client)
          else
            (Except.ok (),
              { client with pixImage := some (env.pathHandle client.ImagePath) })
    | some _ => (Except.ok (), client)
  match bound with
  | (Except.error e, c1) => (Except.error e, c1)
  | (Except.ok _, c1) =>
      match bindVars env c1.Variables with
      | Except.error e => (Except.error e, c1)
      | Except.ok _ => (Except.ok (), c1)

/-- The Go `strings.Trim(s, "\n")`: removes all leading and trailing
newline characters (and only those). -/
def trimNewlines (s : String) : String :=
  String.mk (((s.data.dropWhile (fun c => c = '\n')).reverse.dropWhile
      (fun c => c = '\n')).reverse)

/-- `Client.Text`: init, prepare, then `C.UTF8Text`, trimming newlines when
`Trim` is set.  Returns the result, the client afterwards, the number of
engine `C.Init` invocations and the number of `C.UTF8Text` invocations. -/
def Client.Text (client : Client) (env : Env) :
    Except GErr String × Client × Nat × Nat :=
  match client.init env with
  | (Except.error e, c1, n) => (Except.error e, c1, n, 0)
  | (Except.ok _, c1, n) =>
      match c1.prepare env with
      | (Except.error e, c2) => (Except.error e, c2, n, 0)
      | (Except.ok _, c2) =>
          let out := env.utf8Text
          let out := if c2.Trim then trimNewlines out else out
          (Except.ok out, c2, n, 1)

/-- `Client.HOCRText`: init, prepare, then `C.HOCRText`, with no trimming.
Returns the result, the client afterwards, the number of engine `C.Init`
invocations and the number of `C.HOCRText` invocations. -/
def Client.HOCRText (client : Client) (env : Env) :
    Except GErr String × Client × Nat × Nat :=
  match client.init env with
  | (Except.error e, c1, n) => (Except.error e, c1, n, 0)
  | (Except.ok _, c1, n) =>
      match c1.prepare env with
      | (Except.error e, c2) => (Except.error e, c2, n, 0)
      | (Except.ok _, c2) => (Except.ok env.hocrText, c2, n, 1)

/-! ## Helper lemmas -/

/-- `prepare` only ever changes the `pixImage` field of the client. -/
theorem prepare_client_fields (client : Client) (env : Env) :
    ((client.prepare env).2).Initialized = client.Initialized ∧
    ((client.prepare env).2).Trim = client.Trim ∧
    ((client.prepare env).2).ImagePath = client.ImagePath ∧
    ((client.prepare env).2).ImageData = client.ImageData := by
  unfold Client.prepare
  cases hp : client.pixImage <;>
    by_cases hd : client.ImageData.length > 0 <;>
    by_cases hpath : client.ImagePath = "" <;>
    by_cases hfs : env.fs client.ImagePath = Fs.absent <;>
    cases hb : bindVars env client.Variables <;>
    simp [hp, hd, hpath, hfs, hb]

/-- `init` never calls the engine when the client is already initialized,
and calls it exactly once otherwise. -/
theorem init_calls (client : Client) (env : Env) :
    (client.init env).2.2 = if client.Initialized then 0 else 1 := by
  unfold Client.init
  split
  · simp_all
  · dsimp only
    split <;> simp_all

/-- `init` only ever changes the `Initialized` field of the client. -/
theorem init_client_fields (client : Client) (env : Env) :
    ((client.init env).2.1).Trim = client.Trim ∧
    ((client.init env).2.1).ImagePath = client.ImagePath ∧
    ((client.init env).2.1).ImageData = client.ImageData ∧
    ((client.init env).2.1).pixImage = client.pixImage := by
  unfold Client.init
  split
  · simp
  · dsimp only
    split <;> simp

/-- When `init` succeeds, the resulting client is in the initialized
state. -/
theorem init_ok_Initialized (client : Client) (env : Env)
    (h : (client.init env).1 = Except.ok ()) :
    ((client.init env).2.1).Initialized = true := by
  unfold Client.init at h ⊢
  split at h
  · simp_all [Client.init]
  · dsimp only at h ⊢
    split at h <;> simp_all

/-- When the engine accepts initialization (status code 0), `init`
succeeds. -/
theorem init_ok_of_code_zero (client : Client) (env : Env)
    (h : env.initCode client.charLangs (client.charConfig env) = 0) :
    (client.init env).1 = Except.ok () := by
  unfold Client.init
  split
  · rfl
  · simp [h]

/-- `Text` invokes the engine's `Init` exactly once on an uninitialized
client and never on an initialized one, whatever else happens. -/
theorem Text_initCalls (client : Client) (env : Env) :
    (client.Text env).2.2.1 = if client.Initialized then 0 else 1 := by
  unfold Client.Text
  rcases hi : client.init env with ⟨r, c1, n⟩
  have hn : n = if client.Initialized then 0 else 1 := by
    have := init_calls client env
    rw [hi] at this
    exact this
  cases r with
  | error e => simpa using hn
  | ok u =>
      dsimp only
      rcases hp : c1.prepare env with ⟨rp, c2⟩
      cases rp <;> simpa using hn

/-- After a `Text` call whose initialization succeeded, the returned client
is in the initialized state. -/
theorem Text_client_Initialized (client : Client) (env : Env)
    (h : env.initCode client.charLangs (client.charConfig env) = 0) :
    ((client.Text env).2.1).Initialized = true := by
  unfold Client.Text
  rcases hi : client.init env with ⟨r, c1, n⟩
  have hr : r = Except.ok () := by
    have := init_ok_of_code_zero client env h
    rw [hi] at this
    exact this
  subst hr
  have hc1 : c1.Initialized = true := by
    have := init_ok_Initialized client env (by rw [hi])
    rw [hi] at this
    exact this
  dsimp only
  rcases hp : c1.prepare env with ⟨rp, c2⟩
  have hc2 : c2.Initialized = c1.Initialized := by
    have := (prepare_client_fields c1 env).1
    rw [hp] at this
    exact this
  cases rp <;> simp [hc2, hc1]

/-- The variable-application loop only ever fails with a
`variableBind` error. -/
theorem bindVars_error (env : Env) (l : List (String × String)) (e : GErr)
    (h : bindVars env l = Except.error e) :
    ∃ k v, e = GErr.variableBind k v := by
  induction l with
  | nil => simp [bindVars] at h
  | cons kv rest ih =>
      rcases kv with ⟨k, v⟩
      simp only [bindVars] at h
      split at h
      · exact ih h
      · refine ⟨k, v, ?_⟩
        injection h with h
        exact h.symm

/-- Every error exit of `prepare` is a missing-image-path error, an
image-not-found error, or a variable-bind error. -/
theorem prepare_error_kinds (client : Client) (env : Env) (e : GErr)
    (h : (client.prepare env).1 = Except.error e) :
    e = GErr.missingImagePath ∨ e = GErr.imageNotFound ∨
      ∃ k v, e = GErr.variableBind k v := by
  revert h
  cases hp : client.pixImage <;>
    by_cases hd : client.ImageData.length > 0 <;>
    by_cases hpath : client.ImagePath = "" <;>
    by_cases hfs : env.fs client.ImagePath = Fs.absent <;>
    cases hb : bindVars env client.Variables <;>
    simp only [Client.prepare, hp, hd, hpath, hfs, hb, if_true, if_false,
      ite_true, ite_false, if_pos, if_neg, not_false_iff] <;>
    simp [hd, hpath, hfs, hb] <;>
    rintro rfl <;>
    first
      | simp
      | (obtain ⟨k, v, rfl⟩ := bindVars_error env client.Variables _ hb; simp)

/-! ## Concrete worlds and clients used by witnesses and counterexamples -/

/-- A benign world: every path exists as a regular file, the engine accepts
initialization and every variable, and returns fixed strings. -/
def envW : Env :=
  { fs := fun _ => Fs.file, initCode := fun _ _ => 0,
    bufferHandle := fun _ => 1, pathHandle := fun _ => 2,
    setVarOk := fun _ _ => true,
    utf8Text := "\nHello World\n", hocrText := "\nHello hOCR\n" }

/-- A world where every path is a directory. -/
def envDirW : Env := { envW with fs := fun _ => Fs.dir }

/-- A world where the engine rejects initialization with status code 2. -/
def envBadW : Env := { envW with initCode := fun _ _ => 2 }

/-- A fresh client with an image path configured. -/
def cPathW : Client := { NewClient with ImagePath := "a.png" }

/-- A client with both image sources configured and a bound image handle. -/
def cBoth : Client :=
  { NewClient with ImagePath := "old.png", ImageData := [7], pixImage := some 3 }

/-- A client with a bound image handle. -/
def cBound : Client := { NewClient with pixImage := some 5 }

/-! ## Claims -/

/-- C1, counterexample: the claim says the two image-source setters keep the
sources mutually exclusive (`SetImage` clears the byte buffer, and
`SetImageFromBytes` clears the file path).  Neither setter clears the other
source: on a client with both sources configured, `SetImage` leaves the byte
buffer in place and `SetImageFromBytes` leaves the path in place. -/
theorem C1_counterexample :
    (cBoth.SetImage "new.png").1.ImageData ≠ [] ∧
    (cBoth.SetImageFromBytes [9]).1.ImagePath ≠ "" := by
  constructor <;> simp [cBoth, NewClient, Client.SetImage, Client.SetImageFromBytes]

/-- C1 (amended): each image-source setter stores its own source and leaves
the other source untouched (the sources are NOT mutually exclusive); each
releases a previously bound image handle exactly once and clears the
reference, so a setter immediately following another setter releases
nothing — across the two calls the old handle is released exactly once. -/
theorem C1_image_setters (c : Client) (p : String) (d : List Nat) :
    ((c.SetImage p).1.ImagePath = p ∧
     (c.SetImage p).1.ImageData = c.ImageData ∧
     (c.SetImage p).1.pixImage = none ∧
     (c.SetImage p).2 = (if c.pixImage.isSome then 1 else 0)) ∧
    ((c.SetImageFromBytes d).1.ImageData = d ∧
     (c.SetImageFromBytes d).1.ImagePath = c.ImagePath ∧
     (c.SetImageFromBytes d).1.pixImage = none ∧
     (c.SetImageFromBytes d).2 = (if c.pixImage.isSome then 1 else 0)) ∧
    (c.SetImageFromBytes d).2 + ((c.SetImageFromBytes d).1.SetImage p).2 =
      (if c.pixImage.isSome then 1 else 0) := by
  cases hp : c.pixImage <;>
    simp [Client.SetImage, Client.SetImageFromBytes, hp]

/-- C3: `SetLanguage` replaces the language list and marks the client
uninitialized, so the next extraction performs engine initialization
(exactly one engine `Init` invocation) again. -/
theorem C3_set_languages (env : Env) (c : Client) (langs : List String) :
    (c.SetLanguage langs).Languages = langs ∧
    (c.SetLanguage langs).Initialized = false ∧
    ((c.SetLanguage langs).Text env).2.2.1 = 1 := by
  refine ⟨rfl, rfl, ?_⟩
  simpa [Client.SetLanguage] using Text_initCalls (c.SetLanguage langs) env

/-- C4: `SetConfigFile` fails with a `ConfigPathError` (the stat error or
the directory error) when the path does not exist or is a directory, leaving
the client completely unchanged; on success it stores the path and marks the
client uninitialized, changing nothing else. -/
theorem C4_set_config_file (env : Env) (c : Client) (fpath : String) :
    (env.fs fpath ≠ Fs.file →
      (c.SetConfigFile env fpath).2 = c ∧
      ∃ e, (c.SetConfigFile env fpath).1 = Except.error e ∧
        e.isConfigPathError = true) ∧
    (env.fs fpath = Fs.file →
      c.SetConfigFile env fpath =
        (Except.ok (), { c with Initialized := false, ConfigFilePath := fpath })) := by
  cases hf : env.fs fpath <;>
    simp [Client.SetConfigFile, hf, GErr.isConfigPathError]

/-- A client with a config path already stored, used to observe that a
failing `SetConfigFile` does not overwrite it. -/
def cCfgW : Client :=
  { NewClient with ConfigFilePath := "keep.cfg", Initialized := true }

/-- Witness for C4: in a world where every path is a directory,
`SetConfigFile` returns a `ConfigPathError` and the client (including its
previously stored config path) is unchanged. -/
theorem C4_witness :
    envDirW.fs "sub" ≠ Fs.file ∧
    ((cCfgW.SetConfigFile envDirW "sub").2 = cCfgW ∧
      ∃ e, (cCfgW.SetConfigFile envDirW "sub").1 = Except.error e ∧
        e.isConfigPathError = true) :=
  ⟨by decide, (C4_set_config_file envDirW cCfgW "sub").1 (by decide)⟩

/-- C7: on an uninitialized client, when the engine reports a non-zero
status code, `init` fails with `EngineInitError` carrying that code and the
client is returned unchanged — in particular it remains uninitialized. -/
theorem C7_engine_init_failure (env : Env) (c : Client)
    (h1 : c.Initialized = false)
    (h2 : env.initCode c.charLangs (c.charConfig env) ≠ 0) :
    c.init env =
      (Except.error (GErr.engineInit (env.initCode c.charLangs (c.charConfig env))),
        c, 1) := by
  simp [Client.init, h1, h2]

/-- Witness for C7: a fresh client in a world whose engine answers status
code 2 fails with `EngineInitError 2` and stays unchanged. -/
theorem C7_witness :
    NewClient.Initialized = false ∧
    envBadW.initCode NewClient.charLangs (NewClient.charConfig envBadW) ≠ 0 ∧
    NewClient.init envBadW = (Except.error (GErr.engineInit 2), NewClient, 1) :=
  ⟨rfl, by decide, C7_engine_init_failure envBadW NewClient rfl (by decide)⟩

/-- C8, counterexample: the claim says calling `Close` twice must not
release either handle a second time.  The image handle is indeed protected,
but `Close` runs `C.Clear`/`C.Free` on the engine handle unconditionally:
on a client whose image was bound, the second `Close` performs another
engine-handle release (count 1, not 0). -/
theorem C8_counterexample : ((cBound.Close).1.Close).2.1 ≠ 0 := by
  simp [cBound, NewClient, Client.Close]

/-- C8 (amended): `Close` releases the bound image handle exactly once if
present and clears the reference, is safe when no image was ever bound
(zero image releases), and a second `Close` does not release the image
handle again; the engine handle, however, is released on every `Close`
call, so a double `Close` does double-release the engine handle. -/
theorem C8_close (c : Client) :
    (c.Close).1.pixImage = none ∧
    (c.Close).2.2 = (if c.pixImage.isSome then 1 else 0) ∧
    (c.Close).2.1 = 1 ∧
    ((c.Close).1.Close).2.2 = 0 ∧
    ((c.Close).1.Close).2.1 = 1 := by
  cases hp : c.pixImage <;> simp [Client.Close, hp]

/-- C2: when the engine accepts initialization, two `Text` calls in
succession with no intervening mutation invoke the engine's `Init`
operation exactly once in total on an uninitialized client (and zero times
on an initialized one); and on an already-initialized client, `init` is a
no-op that succeeds without any engine call. -/
theorem C2_init_idempotent (env : Env) (c : Client)
    (h : env.initCode c.charLangs (c.charConfig env) = 0) :
    (c.Initialized = true → c.init env = (Except.ok (), c, 0)) ∧
    (c.Text env).2.2.1 + (((c.Text env).2.1).Text env).2.2.1 =
      (if c.Initialized then 0 else 1) := by
  constructor
  · intro hI
    simp [Client.init, hI]
  · have h1 := Text_initCalls c env
    have h2 := Text_initCalls ((c.Text env).2.1) env
    have h3 := Text_client_Initialized c env h
    rw [h1, h2, h3]
    simp

/-- Witness for C2: a fresh client with an image path, in a world whose
engine accepts initialization, initializes exactly once across two `Text`
calls. -/
theorem C2_witness :
    envW.initCode cPathW.charLangs (cPathW.charConfig envW) = 0 ∧
    ((cPathW.Initialized = true → cPathW.init envW = (Except.ok (), cPathW, 0)) ∧
     (cPathW.Text envW).2.2.1 + (((cPathW.Text envW).2.1).Text envW).2.2.1 =
       (if cPathW.Initialized then 0 else 1)) :=
  ⟨rfl, C2_init_idempotent envW cPathW rfl⟩

/-- C5: whenever `Text` succeeds, the returned string is the engine's raw
output with all leading and trailing newline characters (and only newline
characters) removed when `Trim` is set, and the raw engine output unchanged
when `Trim` is not set. -/
theorem C5_trim_text (env : Env) (c : Client) (out : String) (c2 : Client)
    (n m : Nat) (h : c.Text env = (Except.ok out, c2, n, m)) :
    out = (if c.Trim then trimNewlines env.utf8Text else env.utf8Text) := by
  unfold Client.Text at h
  rcases hi : c.init env with ⟨r, c1, ni⟩
  rw [hi] at h
  cases r with
  | error e => simp at h
  | ok u =>
      dsimp only at h
      rcases hp : c1.prepare env with ⟨rp, cp⟩
      rw [hp] at h
      cases rp with
      | error e => simp at h
      | ok v =>
          have ha : cp.Trim = c1.Trim := by
            have := (prepare_client_fields c1 env).2.1
            rw [hp] at this
            exact this
          have hb : c1.Trim = c.Trim := by
            have := (init_client_fields c env).1
            rw [hi] at this
            exact this
          simp only [Prod.mk.injEq, Except.ok.injEq] at h
          rw [← h.1, ha, hb]

/-- The client state after a successful extraction from `cPathW` in the
benign world. -/
def cAfterW : Client := { cPathW with Initialized := true, pixImage := some 2 }

/-- Witness for C5: with `Trim` set, the engine answer `"\nHello World\n"`
comes back as `"Hello World"`. -/
theorem C5_witness :
    cPathW.Text envW = (Except.ok "Hello World", cAfterW, 1, 1) ∧
    "Hello World" =
      (if cPathW.Trim then trimNewlines envW.utf8Text else envW.utf8Text) :=
  ⟨rfl, C5_trim_text envW cPathW "Hello World" cAfterW 1 1 rfl⟩

/-- C6: on a client with no image path, no image bytes and no bound image
handle, in a world whose engine accepts initialization, `Text` fails with
the missing-image-path error and the engine's text-extraction operation is
never invoked. -/
theorem C6_missing_image (env : Env) (c : Client)
    (h1 : c.ImagePath = "") (h2 : c.ImageData = []) (h3 : c.pixImage = none)
    (h4 : env.initCode c.charLangs (c.charConfig env) = 0) :
    (c.Text env).1 = Except.error GErr.missingImagePath ∧
    (c.Text env).2.2.2 = 0 := by
  cases hI : c.Initialized <;>
    simp [Client.Text, Client.init, Client.prepare, h1, h2, h3, h4, hI]

/-- Witness for C6: a fresh client in the benign world. -/
theorem C6_witness :
    NewClient.ImagePath = "" ∧ NewClient.ImageData = [] ∧
    NewClient.pixImage = none ∧
    envW.initCode NewClient.charLangs (NewClient.charConfig envW) = 0 ∧
    ((NewClient.Text envW).1 = Except.error GErr.missingImagePath ∧
     (NewClient.Text envW).2.2.2 = 0) :=
  ⟨rfl, rfl, rfl, rfl, C6_missing_image envW NewClient rfl rfl rfl rfl⟩

/-- C9, counterexample: the claim says an empty byte buffer makes image
binding fail with `EmptyImageDataError`.  The code produces no such error:
on a client with an empty buffer (and no path), `prepare` returns the
missing-image-path error, not an empty-image-data error. -/
theorem C9_counterexample :
    (NewClient.prepare envW).1 = Except.error GErr.missingImagePath ∧
    (NewClient.prepare envW).1 ≠ Except.error GErr.emptyImageData := by
  constructor
  · rfl
  · rw [show (NewClient.prepare envW).1 = Except.error GErr.missingImagePath
      from rfl]
    simp

/-- C9 (amended): with no bound image handle, binding derives the handle
from the byte buffer when it is non-empty; an empty buffer is simply
treated as "no buffer" and falls through to the path-based logic (there is
no empty-image-data error anywhere: every `prepare` error is
missing-image-path, image-not-found, or variable-bind); the path-based
logic fails with the missing-image-path error when no path is set and with
the image-not-found error when the path does not exist on disk. -/
theorem C9_image_binding (env : Env) (c : Client) (h : c.pixImage = none) :
    (c.ImageData ≠ [] →
      ((c.prepare env).2).pixImage = some (env.bufferHandle c.ImageData)) ∧
    (c.ImageData = [] → c.ImagePath = "" →
      c.prepare env = (Except.error GErr.missingImagePath, c)) ∧
    (c.ImageData = [] → c.ImagePath ≠ "" → env.fs c.ImagePath = Fs.absent →
      c.prepare env = (Except.error GErr.imageNotFound, c)) ∧
    (∀ e cE, c.prepare env = (Except.error e, cE) → e ≠ GErr.emptyImageData) := by
  refine ⟨?_, ?_, ?_, ?_⟩
  · intro hd
    have hlen : c.ImageData.length > 0 := by
      cases hcd : c.ImageData <;> simp_all
    cases hb : bindVars env c.Variables <;>
      simp [Client.prepare, h, hlen, hb]
  · intro hd hpath
    simp [Client.prepare, h, hd, hpath]
  · intro hd hpath hfs
    simp [Client.prepare, h, hd, hpath, hfs]
  · intro e cE hpe
    have h1 : (c.prepare env).1 = Except.error e := by rw [hpe]
    rcases prepare_error_kinds c env e h1 with h2 | h2 | ⟨k, v, h2⟩ <;>
      subst h2 <;> simp

/-- A client with a non-empty byte buffer. -/
def cBytesW : Client := { NewClient with ImageData := [1, 2] }

/-- Witness for C9: a non-empty buffer binds the buffer-derived handle. -/
theorem C9_witness :
    cBytesW.pixImage = none ∧ cBytesW.ImageData ≠ [] ∧
    ((cBytesW.prepare envW).2).pixImage = some (envW.bufferHandle [1, 2]) :=
  ⟨rfl, by simp [cBytesW, NewClient],
    (C9_image_binding envW cBytesW rfl).1 (by simp [cBytesW, NewClient])⟩

/-- C10: whenever `HOCRText` succeeds, the returned string is exactly the
engine's hOCR output, with no newline trimming applied — the `Trim` flag
affects only `Text`. -/
theorem C10_hocr_untrimmed (env : Env) (c : Client) (out : String) (c2 : Client)
    (n m : Nat) (h : c.HOCRText env = (Except.ok out, c2, n, m)) :
    out = env.hocrText := by
  unfold Client.HOCRText at h
  rcases hi : c.init env with ⟨r, c1, ni⟩
  rw [hi] at h
  cases r with
  | error e => simp at h
  | ok u =>
      dsimp only at h
      rcases hp : c1.prepare env with ⟨rp, cp⟩
      rw [hp] at h
      cases rp with
      | error e => simp at h
      | ok v =>
          simp only [Prod.mk.injEq, Except.ok.injEq] at h
          exact h.1.symm

/-- Witness for C10: with `Trim` set, the engine's hOCR answer
`"\nHello hOCR\n"` comes back unchanged. -/
theorem C10_witness :
    cPathW.Trim = true ∧
    cPathW.HOCRText envW = (Except.ok "\nHello hOCR\n", cAfterW, 1, 1) ∧
    "\nHello hOCR\n" = envW.hocrText :=
  ⟨rfl, rfl, C10_hocr_untrimmed envW cPathW "\nHello hOCR\n" cAfterW 1 1 rfl⟩

end Gosseract
